import Mathlib

/-!
Shallow embedding of the zenon-bridge-bot event pipeline.

The definitions below are translated from the repository's Python source:

* `src/src/config.py` — configuration constants (addresses, token tables);
* `src/src/zenon/decoder.py` — `TransactionDecoder` (`decode_transaction`,
  `_determine_tx_type`, `_decode_data`, `_is_valid_eth_address`);
* `src/src/zenon/websocket.py` — `ZenonWebSocket` (`start` reconnect loop,
  `_process_account_block`, `_is_valid_bridge_transaction`);
* `src/database.py` — `Database` (`add_transaction`, `get_statistics`,
  `get_active_subscribers`);
* `src/src/telegram/handlers.py` — `TelegramHandlers.send_transaction_notification`.

Modelling conventions:

* JSON dictionary fields that may be absent or null are modelled with their
  Python falsy default: string fields as `String` with `""` standing for
  absent/null (the source only compares them for equality against non-empty
  constants or tests truthiness), the payload `data` field as
  `Option (List Nat)` holding the base64-decoded bytes (`none` stands for a
  missing or empty `data` string; base64 decoding itself is outside the model,
  the bytes are taken as given).
* Timestamps are seconds since the epoch (`Int`); SQLite stores ISO-8601
  strings whose lexicographic order agrees with the numeric order used here.
* SQL `CAST(amount AS REAL)` on the all-digit amount strings produced by the
  node is modelled as exact `Nat` parsing of the digit characters, defaulting
  to `0` for empty or non-numeric text as `CAST` does (the longest-numeric-
  prefix behaviour of `CAST` on malformed mixed text is not modelled; the
  node's amounts are pure digit strings).
-/

/-- `BRIDGE_ADDRESS` from `src/src/config.py` (also hard-coded in
`decoder._determine_tx_type`). -/
def BRIDGE_ADDRESS : String := "z1qxemdeddedxdrydgexxxxxxxxxxxxxxxmqgr0d"

/-- Burn address constant from `websocket._process_account_block`. -/
def BURN_ADDRESS : String := "z1qqqqqqqqqqqqqqqqqqqqqqqqqqqqqqqqsggv2f"

/-- ZNN token standard string. -/
def znnToken : String := "zts1znnxxxxxxxxxxxxx9z4ulx"

/-- QSR token standard string. -/
def qsrToken : String := "zts1qsrxxxxxxxxxxxxxmrhjll"

/-- Zero/system token standard mentioned in `_is_valid_bridge_transaction`. -/
def systemToken : String := "zts1qqqqqqqqqqqqqqqqtq587y"

/-- The supported-token list used both by the classifier heuristics and the
validity filter (`valid_tokens` in the source). -/
def valid_tokens : List String := [znnToken, qsrToken]

/-- One raw account block as delivered by the node (a `RawLedgerEvent`),
with the fields the pipeline reads. `data` holds the base64-decoded payload
bytes; `none` models a missing or empty `data` field. -/
structure BlockData where
  hash : String
  address : String
  toAddress : String
  amount : String
  tokenStandard : String
  height : Nat
  momentumTimestamp : Option Int
  data : Option (List Nat)
deriving DecidableEq

/-- A raw block together with its optional nested `pairedAccountBlock`
(the source never recurses into the paired block's own pairing). -/
structure RawBlock where
  base : BlockData
  pairedAccountBlock : Option BlockData
deriving DecidableEq

/-- Method signature for WrapToken (`61d224bc`). -/
def WRAP_TOKEN_SIG : List Nat := [0x61, 0xd2, 0x24, 0xbc]

/-- Method signature for UnwrapToken (`52298858`). -/
def UNWRAP_TOKEN_SIG : List Nat := [0x52, 0x29, 0x88, 0x58]

/-- Method signature for Redeem (`1e83409a`). -/
def REDEEM_SIG : List Nat := [0x1e, 0x83, 0x40, 0x9a]

/-- Method signature for UpdateWrapRequest (`d4bb11c0`). -/
def UPDATE_WRAP_REQUEST_SIG : List Nat := [0xd4, 0xbb, 0x11, 0xc0]

/-- The signature table of `TransactionDecoder.__init__` composed with the
`TRANSACTION_TYPES` name table of `src/src/config.py`: mapping a 4-byte
method signature to the transaction type name it denotes. -/
def sigLookup (sig : List Nat) : Option String :=
  if sig = WRAP_TOKEN_SIG then some "WrapToken"
  else if sig = UNWRAP_TOKEN_SIG then some "UnwrapToken"
  else if sig = REDEEM_SIG then some "Redeem"
  else if sig = UPDATE_WRAP_REQUEST_SIG then some "UpdateWrapRequest"
  else none

/-- Heuristic tail of `decoder._determine_tx_type`: the fall-through cases
that run when the payload is absent or shorter than 4 bytes.  Mirrors the
sequential returns of the source: wrap-to-bridge, unwrap-from-bridge,
plain transfer, otherwise Unknown. -/
def contextTxType (b : BlockData) : String :=
  if b.toAddress = BRIDGE_ADDRESS ∧ b.tokenStandard ∈ valid_tokens ∧ b.amount ≠ "0" then
    "WrapToken"
  else if b.address = BRIDGE_ADDRESS ∧ b.tokenStandard ≠ "" ∧ b.amount ≠ "0" then
    "UnwrapToken"
  else if b.data = none ∧ b.toAddress ≠ b.address ∧ b.toAddress ≠ BRIDGE_ADDRESS ∧
      b.address ≠ BRIDGE_ADDRESS then
    "Transfer"
  else
    "Unknown"

/-- `decoder._determine_tx_type`.  When the payload is present and at least
4 bytes long, the leading 4-byte signature decides alone: a table match
returns the mapped type and anything else returns `Unknown` without ever
consulting the address heuristics.  Shorter or absent payloads fall through
to `contextTxType`. -/
def determine_tx_type (b : BlockData) : String :=
  match b.data with
  | some bs =>
    if 4 ≤ bs.length then
      match sigLookup (bs.take 4) with
      | some t => t
      | none => "Unknown"
    else contextTxType b
  | none => contextTxType b

/-- ASCII hex-digit test on a byte, used by the model of
`_is_valid_eth_address` (`int(address, 16)` succeeds on hex digits; the
source string always starts with the scanned `0x`). -/
def isHexByte (n : Nat) : Bool :=
  (48 ≤ n ∧ n ≤ 57) ∨ (97 ≤ n ∧ n ≤ 102) ∨ (65 ≤ n ∧ n ≤ 70)

/-- Suffix of the byte list starting at the first occurrence of the two
bytes `'0' 'x'` (48, 120), as `data_bytes.find(b'0x')` locates it;
`none` when no such occurrence exists. -/
def suffixFromOx : List Nat → Option (List Nat)
  | [] => none
  | a :: rest =>
    if a = 48 ∧ rest.head? = some 120 then some (a :: rest)
    else suffixFromOx rest

/-- Bytes rendered as a string, one character per byte.  Models the
`decode('utf-8', errors='ignore')` of the source for the ASCII bytes a
valid candidate consists of (a candidate containing non-ASCII bytes can
never pass the hex check below either way). -/
def bytesToString (bs : List Nat) : String :=
  String.mk (bs.map Char.ofNat)

/-- `decoder._decode_data` restricted to its one output: scan the decoded
payload bytes for an embedded `0x`-prefixed 40-hex-digit external-chain
address.  The source takes the 42 bytes from the first `0x` occurrence (if
42 bytes are available there), decodes them and keeps them when
`_is_valid_eth_address` holds: starts with `0x`, total length 42, and the
whole string parses as hex. -/
def findEthAddr (bs : List Nat) : Option String :=
  match suffixFromOx bs with
  | none => none
  | some suffix =>
    if 42 ≤ suffix.length then
      let cand := suffix.take 42
      if (cand.drop 2).all isHexByte then some (bytesToString cand) else none
    else none

/-- The decoded transaction record built by `decoder.decode_transaction`
(the `tx_info` dict).  `formatted_amount` — a float rendering consumed only
by the message formatter, produced inside a catch-all so it can never abort
classification — is outside the model; no verified claim concerns it. -/
structure TxInfo where
  hash : String
  from_addr : String
  to_addr : String
  amount : String
  token : String
  block_height : Nat
  timestamp : Option Int
  type : String
  eth_addr : Option String
deriving DecidableEq

/-- `decoder.decode_transaction`: copies the block fields, classifies the
type with `_determine_tx_type`, and attaches the embedded external-chain
address extracted from the payload by `_decode_data` when one is present. -/
def decode_transaction (b : BlockData) : TxInfo :=
  { hash := b.hash
    from_addr := b.address
    to_addr := b.toAddress
    amount := b.amount
    token := b.tokenStandard
    block_height := b.height
    timestamp := b.momentumTimestamp
    type := determine_tx_type b
    eth_addr := b.data.bind findEthAddr }

/-- Transaction type names accepted by the validity filter
(`valid_types` in `websocket._is_valid_bridge_transaction`). -/
def filter_valid_types : List String :=
  ["WrapToken", "UnwrapToken", "Redeem", "UpdateWrapRequest"]

/-- `websocket._is_valid_bridge_transaction`: the validity filter applied
before a transaction reaches the `on_transaction` callback.  Rejects types
outside `filter_valid_types`; for WrapToken/UnwrapToken additionally
requires a supported token and a non-zero amount.  The Redeem /
UpdateWrapRequest token branch of the source only logs and affects
nothing. -/
def is_valid_bridge_transaction (tx : TxInfo) : Bool :=
  if tx.type ∉ filter_valid_types then false
  else if tx.type ∈ ["WrapToken", "UnwrapToken"] ∧
      (tx.token ∉ valid_tokens ∨ tx.amount = "0") then false
  else true

/-- Decode-validate-emit step shared by the three emission sites of
`websocket._process_account_block`: decode the block and keep the
transaction when `_is_valid_bridge_transaction` accepts it. -/
def emitIfValid (b : BlockData) : List TxInfo :=
  if is_valid_bridge_transaction (decode_transaction b) then
    [decode_transaction b]
  else []

/-- `websocket._process_account_block`, one loop iteration: the `continue`
on a burn-address recipient, the FROM-bridge branch, the TO-bridge branch,
and the paired-block branch, in source order.  The result lists the
`on_transaction` callback invocations this block produces, in order. -/
def process_block (rb : RawBlock) : List TxInfo :=
  if rb.base.toAddress = BURN_ADDRESS then []
  else
    (if rb.base.address = BRIDGE_ADDRESS then emitIfValid rb.base else []) ++
    (if rb.base.toAddress = BRIDGE_ADDRESS then emitIfValid rb.base else []) ++
    (match rb.pairedAccountBlock with
      | some p =>
        if p.toAddress ≠ BURN_ADDRESS ∧
            (p.toAddress = BRIDGE_ADDRESS ∨ p.address = BRIDGE_ADDRESS) then
          emitIfValid p
        else []
      | none => [])

/-- `websocket._process_account_block` over the whole delivered batch
(a single block is wrapped into a one-element list by the source). -/
def process_account_block (blocks : List RawBlock) : List TxInfo :=
  (blocks.map process_block).flatten

/-- The primary-event emissions of one block (the FROM-bridge branch
followed by the TO-bridge branch), a function of the primary block alone. -/
def primary_emissions (b : BlockData) : List TxInfo :=
  (if b.address = BRIDGE_ADDRESS then emitIfValid b else []) ++
  (if b.toAddress = BRIDGE_ADDRESS then emitIfValid b else [])

/-- The paired-event emissions of one block, a function of the paired block
alone: the paired block is decoded and validity-filtered independently of
how the primary was classified or filtered. -/
def paired_emissions : Option BlockData → List TxInfo
  | some p =>
    if p.toAddress ≠ BURN_ADDRESS ∧
        (p.toAddress = BRIDGE_ADDRESS ∨ p.address = BRIDGE_ADDRESS) then
      emitIfValid p
    else []
  | none => []

/-!
Reconnect loop of `websocket.start`.  One iteration of the `while
self._running` loop either fails inside `websockets.connect` (before the
`self.reconnect_delay = 5` reset that follows a successful connection), or
connects and then raises out of `_subscribe`, or connects, subscribes and
later raises out of the message stream, or connects, subscribes and the
stream ends without an exception (in which case `_connect` returns and the
loop retries at once, with no sleep and no doubling).
-/

/-- Outcome of one iteration of the `start` loop. -/
inductive ConnAttempt where
  | connectFail
  | subscribeFail
  | streamFail
  | streamClose
deriving DecidableEq

/-- The maximum reconnect delay (`self.max_reconnect_delay`). -/
def max_reconnect_delay : Nat := 300

/-- The `except` handler's delay update in `start`:
`self.reconnect_delay = min(self.reconnect_delay * 2, self.max_reconnect_delay)`. -/
def backoffNext (d : Nat) : Nat := min (d * 2) max_reconnect_delay

/-- Effect of one `_connect` call on the reconnect delay: the delay it
leaves behind, and whether `_connect` raised.  On any successful
connection the source immediately resets `self.reconnect_delay = 5`,
before `_subscribe` is even attempted. -/
def connectResult (d : Nat) : ConnAttempt → Nat × Bool
  | .connectFail => (d, true)
  | .subscribeFail => (5, true)
  | .streamFail => (5, true)
  | .streamClose => (5, false)

/-- One iteration of the `start` loop: run `_connect`; if it raised, sleep
for the current delay and then double it (capped).  Returns the delay for
the next iteration and the sleep performed, if any. -/
def startStep (d : Nat) (a : ConnAttempt) : Nat × Option Nat :=
  let r := connectResult d a
  if r.2 then (backoffNext r.1, some r.1) else (r.1, none)

/-- A run of the `start` loop from a given delay over a list of iteration
outcomes: the final delay and the sleeps performed, in order. -/
def runStart : Nat → List ConnAttempt → Nat × List Nat
  | d, [] => (d, [])
  | d, a :: rest =>
    let s := startStep d a
    let r := runStart s.1 rest
    (r.1, s.2.toList ++ r.2)

/-- Modelled from the spec claim, for comparison with `startStep`: the
delay would be reset to the base 5 exactly when a subscribe succeeds (on
entering Streaming), not earlier, and every failure would sleep the
current delay and then double it capped at 300. -/
def claimedStep (d : Nat) : ConnAttempt → Nat × Option Nat
  | .connectFail => (backoffNext d, some d)
  | .subscribeFail => (backoffNext d, some d)
  | .streamFail => (backoffNext 5, some 5)
  | .streamClose => (5, none)

/-- Runs of the claimed reset discipline, for comparison with `runStart`. -/
def claimedRun : Nat → List ConnAttempt → Nat × List Nat
  | d, [] => (d, [])
  | d, a :: rest =>
    let s := claimedStep d a
    let r := claimedRun s.1 rest
    (r.1, s.2.toList ++ r.2)

/-!
Deduplicating store, `src/database.py`.
-/

/-- One row of the `transactions` table (`hash` is the primary key). -/
structure TxRow where
  hash : String
  type : String
  amount : String
  token : String
  from_addr : String
  to_addr : String
  eth_addr : Option String
  timestamp : Option Int
  block_height : Nat
deriving DecidableEq

/-- The row `Database.add_transaction` inserts for a decoded transaction. -/
def rowOf (tx : TxInfo) : TxRow :=
  { hash := tx.hash
    type := tx.type
    amount := tx.amount
    token := tx.token
    from_addr := tx.from_addr
    to_addr := tx.to_addr
    eth_addr := tx.eth_addr
    timestamp := tx.timestamp
    block_height := tx.block_height }

/-- `Database.add_transaction`: `INSERT OR IGNORE` keyed on the `hash`
primary key — if a row with the same hash exists the statement is a silent
no-op, otherwise the row is appended.  The Python function returns `None`
in every case (there is no outcome value); the state transition below is
its entire observable effect on the table. -/
def add_transaction (db : List TxRow) (tx : TxInfo) : List TxRow :=
  if db.any fun r => r.hash = tx.hash then db else db ++ [rowOf tx]

/-- The value `Database.add_transaction` returns, paired with the state it
leaves: the function body ends without a `return`, so the call evaluates
to `None` (here `Unit.unit`) on the first and on every subsequent call
alike. -/
def add_transaction_call (db : List TxRow) (tx : TxInfo) : List TxRow × Unit :=
  (add_transaction db tx, ())

/-!
Notification fanout, `handlers.send_transaction_notification`.
-/

/-- An active subscriber as returned by `Database.get_active_subscribers`. -/
structure Subscriber where
  user_id : Int
  username : Option String
  filters : List String
deriving DecidableEq

/-- Outcome of one delivery attempt (observational bookkeeping: the source
either `continue`s past a filtered subscriber, or sends and catches any
per-subscriber send failure inside the loop body). -/
inductive DeliveryOutcome where
  | delivered
  | failed
  | filteredOut
deriving DecidableEq

/-- The outcome the loop body of `send_transaction_notification` produces
for one subscriber: skip when the filter list is non-empty and lacks the
transaction's type; otherwise attempt the send, whose success is given by
the environment `send` (a failed send is caught and logged in place). -/
def attemptOne (txType : String) (send : Int → Bool) (s : Subscriber) :
    DeliveryOutcome :=
  if s.filters ≠ [] ∧ txType ∉ s.filters then .filteredOut
  else if send s.user_id then .delivered else .failed

/-- The subscriber loop of `send_transaction_notification`, mirroring the
source's sequential `for subscriber in subscribers` with its `continue`
and per-subscriber `try/except`: each subscriber in turn is paired with
the outcome of its own attempt, and the loop always proceeds to the rest. -/
def send_loop (txType : String) (send : Int → Bool) :
    List Subscriber → List (Int × DeliveryOutcome)
  | [] => []
  | s :: rest =>
    if s.filters ≠ [] ∧ txType ∉ s.filters then
      (s.user_id, DeliveryOutcome.filteredOut) :: send_loop txType send rest
    else if send s.user_id then
      (s.user_id, DeliveryOutcome.delivered) :: send_loop txType send rest
    else
      (s.user_id, DeliveryOutcome.failed) :: send_loop txType send rest

/-- Failure modes of the storage layer during `Database.add_transaction`.
`connectFail`: `aiosqlite.connect` raises (storage unavailable) — this call
sits outside the function's `try`, so the exception propagates to the
caller.  `execFail`: `db.execute`/`db.commit` raise inside the `try` — the
handler prints and swallows the error, leaving the table unchanged. -/
inductive StorageFault where
  | ok
  | execFail
  | connectFail
deriving DecidableEq

/-- `Database.add_transaction` under a storage fault: `.error` models the
exception propagating out of the function, `.ok` the normal return with
the resulting table state. -/
def add_transaction_fault (fault : StorageFault) (db : List TxRow)
    (tx : TxInfo) : Except Unit (List TxRow) :=
  match fault with
  | .connectFail => .error ()
  | .execFail => .ok db
  | .ok => .ok (add_transaction db tx)

/-- `handlers.send_transaction_notification`: fetch the active subscribers,
format the message, `await self.db.add_transaction(tx_info)` — with no
surrounding `try`, so an exception from it propagates and the subscriber
loop below it never runs — then run the subscriber loop.  Returns the
resulting table and the delivery attempts, or `.error` when the function
raises before the loop. -/
def send_transaction_notification (fault : StorageFault) (db : List TxRow)
    (subs : List Subscriber) (tx : TxInfo) (send : Int → Bool) :
    Except Unit (List TxRow × List (Int × DeliveryOutcome)) :=
  match add_transaction_fault fault db tx with
  | .error e => .error e
  | .ok db2 => .ok (db2, send_loop tx.type send subs)

/-!
Subscriber reads, `Database.get_active_subscribers`.
-/

/-- One row of the `subscribers` table (`user_id` is the primary key). -/
structure SubRow where
  user_id : Int
  username : Option String
  active : Bool
  filters : List String
deriving DecidableEq

/-- The filter whitelist of `get_active_subscribers`
(`valid_filters` in the source). -/
def valid_filters : List String := ["WrapToken", "UnwrapToken", "Redeem"]

/-- The cleaning comprehension of `get_active_subscribers`: keep only
whitelisted filter entries. -/
def cleanFilters (fs : List String) : List String :=
  fs.filter fun f => f ∈ valid_filters

/-- Effect of one `get_active_subscribers` cursor step on a stored row: an
active row whose cleaned filter list is shorter than its stored one has
the cleaned list written back (`UPDATE subscribers SET filters = ...`);
every other row is left untouched.  `user_id` is the primary key, so the
`WHERE user_id` update touches exactly the row itself. -/
def cleanRow (r : SubRow) : SubRow :=
  if r.active ∧ (cleanFilters r.filters).length ≠ r.filters.length then
    { r with filters := cleanFilters r.filters }
  else r

/-- `Database.get_active_subscribers`: returns the active rows as
subscriber records carrying the cleaned filter lists, and the table as the
interleaved write-backs leave it. -/
def get_active_subscribers (store : List SubRow) :
    List Subscriber × List SubRow :=
  ((store.filter fun r => r.active).map fun r =>
      { user_id := r.user_id, username := r.username,
        filters := cleanFilters r.filters },
    store.map cleanRow)

/-!
Statistics, `Database.get_statistics`.
-/

/-- One aggregate row of the `get_statistics` result
(`type, COUNT, token, SUM(CAST(amount AS REAL))`). -/
structure StatRow where
  type : String
  count : Nat
  token : String
  volume : Nat
deriving DecidableEq

/-- The `WHERE` clause of `get_statistics`: rows with a null timestamp are
always included, otherwise the timestamp must be strictly inside the
trailing window of `period_days` days before `now`. -/
def inWindow (period_days : Nat) (now : Int) (r : TxRow) : Bool :=
  match r.timestamp with
  | none => true
  | some ts => now - (period_days : Int) * 86400 < ts

/-- Accumulating decimal parser over the characters of an amount string. -/
def parseDigitsAux (acc : Nat) : List Char → Option Nat
  | [] => some acc
  | c :: rest =>
    if 48 ≤ c.toNat ∧ c.toNat ≤ 57 then
      parseDigitsAux (acc * 10 + (c.toNat - 48)) rest
    else none

/-- Decimal value of an all-digit string's characters; `none` on the empty
list or any non-digit character. -/
def parseDigits : List Char → Option Nat
  | [] => none
  | cs => parseDigitsAux 0 cs

/-- `CAST(amount AS REAL)` on the node's all-digit amount strings, modelled
exactly: empty or non-numeric text casts to 0. -/
def castAmount (r : TxRow) : Nat := (parseDigits r.amount.data).getD 0

/-- Sum of the cast amounts of a list of rows (`SUM(CAST(amount AS REAL))`
over one group). -/
def sumAmounts (l : List TxRow) : Nat :=
  l.foldr (fun r acc => castAmount r + acc) 0

/-- The distinct `(type, token)` group keys of the matching rows, in order
of first appearance (`GROUP BY type, token`; SQLite fixes no output order,
first-appearance order is this model's choice). -/
def groupKeysAux (seen : List (String × String)) :
    List (String × String) → List (String × String)
  | [] => []
  | k :: rest =>
    if k ∈ seen then groupKeysAux seen rest
    else k :: groupKeysAux (k :: seen) rest

/-- Distinct group keys of a key list, first appearance first. -/
def groupKeys (l : List (String × String)) : List (String × String) :=
  groupKeysAux [] l

/-- `Database.get_statistics`: filter the stored transactions by the
timestamp window (null timestamps always pass), group by `(type, token)`,
and report each group's row count and summed cast amount. -/
def get_statistics (period_days : Nat) (now : Int) (rows : List TxRow) :
    List StatRow :=
  (groupKeys ((rows.filter (inWindow period_days now)).map fun r =>
      (r.type, r.token))).map fun k =>
    { type := k.1
      count := ((rows.filter (inWindow period_days now)).filter fun r =>
        r.type = k.1 ∧ r.token = k.2).length
      token := k.2
      volume := sumAmounts ((rows.filter (inWindow period_days now)).filter
        fun r => r.type = k.1 ∧ r.token = k.2) }

/-!
Helper lemmas shared by the claim theorems below.
-/

/-- Unfolding of `determine_tx_type` when the payload is present. -/
lemma determine_tx_type_some {b : BlockData} {bs : List Nat}
    (h : b.data = some bs) :
    determine_tx_type b =
      if 4 ≤ bs.length then
        match sigLookup (bs.take 4) with
        | some t => t
        | none => "Unknown"
      else contextTxType b := by
  unfold determine_tx_type
  rw [h]

/-- Unfolding of `determine_tx_type` when the payload is absent. -/
lemma determine_tx_type_none {b : BlockData} (h : b.data = none) :
    determine_tx_type b = contextTxType b := by
  unfold determine_tx_type
  rw [h]

/-- A transaction emitted by an `emitIfValid` site is the decoded block and
passed the validity filter. -/
lemma mem_emitIfValid {b : BlockData} {tx : TxInfo} (h : tx ∈ emitIfValid b) :
    tx = decode_transaction b ∧ is_valid_bridge_transaction tx = true := by
  unfold emitIfValid at h
  split at h
  · next hv =>
    simp only [List.mem_singleton] at h
    subst h
    exact ⟨rfl, hv⟩
  · simp at h

/-- The recipient of a decoded transaction is the block's `toAddress`. -/
lemma decode_to_addr (b : BlockData) :
    (decode_transaction b).to_addr = b.toAddress := rfl

/-- Every transaction emitted by one `_process_account_block` iteration
passed the validity filter and has a non-burn recipient. -/
lemma mem_process_block {rb : RawBlock} {tx : TxInfo}
    (h : tx ∈ process_block rb) :
    is_valid_bridge_transaction tx = true ∧ tx.to_addr ≠ BURN_ADDRESS := by
  unfold process_block at h
  split at h
  · simp at h
  · next hburn =>
    rw [List.mem_append, List.mem_append] at h
    rcases h with (h | h) | h
    · split at h
      · obtain ⟨rfl, hv⟩ := mem_emitIfValid h
        exact ⟨hv, by rw [decode_to_addr]; exact hburn⟩
      · simp at h
    · split at h
      · obtain ⟨rfl, hv⟩ := mem_emitIfValid h
        exact ⟨hv, by rw [decode_to_addr]; exact hburn⟩
      · simp at h
    · split at h
      · next p _ =>
        split at h
        · next hp =>
          obtain ⟨rfl, hv⟩ := mem_emitIfValid h
          exact ⟨hv, by rw [decode_to_addr]; exact hp.1⟩
        · simp at h
      · simp at h

/-- Every transaction emitted by `_process_account_block` passed the
validity filter and has a non-burn recipient. -/
lemma mem_process_account_block {blocks : List RawBlock} {tx : TxInfo}
    (h : tx ∈ process_account_block blocks) :
    is_valid_bridge_transaction tx = true ∧ tx.to_addr ≠ BURN_ADDRESS := by
  unfold process_account_block at h
  rw [List.mem_flatten] at h
  obtain ⟨l, hl, htx⟩ := h
  rw [List.mem_map] at hl
  obtain ⟨rb, _, rfl⟩ := hl
  exact mem_process_block htx

/-!
Claim theorems.
-/

/-- C1 counterexample: a transaction of type `UpdateWrapRequest` — a type
outside the claimed set of WrapToken, UnwrapToken, Redeem — is accepted by
`_is_valid_bridge_transaction`, so the filter does not accept only the
three claimed types. -/
theorem C1_counterexample :
    is_valid_bridge_transaction
        { hash := "0xc1", from_addr := "z1user", to_addr := BRIDGE_ADDRESS,
          amount := "0", token := "", block_height := 1, timestamp := none,
          type := "UpdateWrapRequest", eth_addr := none } = true ∧
    "UpdateWrapRequest" ∉ ["WrapToken", "UnwrapToken", "Redeem"] := by
  decide

/-- C1 (amended): the validity filter accepts a transaction only if its
type is WrapToken, UnwrapToken, Redeem, or UpdateWrapRequest; every
transaction of type Unknown or Transfer is rejected; and every transaction
emitted towards persistence/notification passed the filter. -/
theorem C1_validity_filter_types :
    (∀ tx : TxInfo, is_valid_bridge_transaction tx = true →
        tx.type ∈ filter_valid_types) ∧
    (∀ tx : TxInfo, tx.type = "Unknown" ∨ tx.type = "Transfer" →
        is_valid_bridge_transaction tx = false) ∧
    (∀ (blocks : List RawBlock) (tx : TxInfo),
        tx ∈ process_account_block blocks →
        is_valid_bridge_transaction tx = true) := by
  refine ⟨?_, ?_, ?_⟩
  · intro tx h
    by_contra hne
    unfold is_valid_bridge_transaction at h
    rw [if_pos hne] at h
    exact Bool.false_ne_true h
  · intro tx h
    have hne : tx.type ∉ filter_valid_types := by
      rcases h with h | h <;> rw [h] <;> decide
    unfold is_valid_bridge_transaction
    rw [if_pos hne]
  · intro blocks tx h
    exact (mem_process_account_block h).1

/-- C1 witness: the amended theorem applied to a concrete accepted
WrapToken transaction and a concrete Unknown transaction. -/
theorem C1_validity_filter_types_witness :
    ({ hash := "0xw", from_addr := "z1user", to_addr := BRIDGE_ADDRESS,
       amount := "5", token := znnToken, block_height := 1, timestamp := none,
       type := "WrapToken", eth_addr := none } : TxInfo).type ∈
      filter_valid_types ∧
    is_valid_bridge_transaction
        { hash := "0xu", from_addr := "z1a", to_addr := "z1b",
          amount := "5", token := znnToken, block_height := 1,
          timestamp := none, type := "Unknown", eth_addr := none } = false :=
  ⟨C1_validity_filter_types.1 _ (by decide),
    C1_validity_filter_types.2.1 _ (Or.inl rfl)⟩

/-- C2 counterexample: an event whose 4-byte payload signature is not in
the signature table, whose recipient is the bridge address, with a
supported token and non-zero amount, classifies as Unknown — not as
WrapToken as the claim states. -/
theorem C2_counterexample :
    determine_tx_type
        { hash := "0xc2", address := "z1sender", toAddress := BRIDGE_ADDRESS,
          amount := "100", tokenStandard := znnToken, height := 1,
          momentumTimestamp := none, data := some [0, 0, 0, 0] } = "Unknown" ∧
    sigLookup [0, 0, 0, 0] = none ∧ znnToken ∈ valid_tokens := by
  decide

/-- C2 (amended): when the payload is absent or shorter than 4 bytes and
the event's recipient is the bridge address with a supported token and
non-zero amount, classification yields WrapToken; an event carrying a
payload of 4 or more bytes whose leading signature is not in the table is
classified Unknown, bypassing the heuristics. -/
theorem C2_wrap_heuristic :
    (∀ b : BlockData,
        (b.data = none ∨ ∃ bs, b.data = some bs ∧ bs.length < 4) →
        b.toAddress = BRIDGE_ADDRESS → b.tokenStandard ∈ valid_tokens →
        b.amount ≠ "0" → determine_tx_type b = "WrapToken") ∧
    (∀ (b : BlockData) (bs : List Nat), b.data = some bs → 4 ≤ bs.length →
        sigLookup (bs.take 4) = none → determine_tx_type b = "Unknown") := by
  constructor
  · intro b hdata hto htok hamt
    have hctx : contextTxType b = "WrapToken" := by
      unfold contextTxType
      rw [if_pos ⟨hto, htok, hamt⟩]
    rcases hdata with h | ⟨bs, h, hlen⟩
    · rw [determine_tx_type_none h]
      exact hctx
    · have h4 : ¬ 4 ≤ bs.length := by omega
      rw [determine_tx_type_some h, if_neg h4]
      exact hctx
  · intro b bs h h4 hsig
    rw [determine_tx_type_some h, if_pos h4, hsig]

/-- C2 witness: the amended theorem applied to a concrete payload-free
wrap event and a concrete unknown-signature event. -/
theorem C2_wrap_heuristic_witness :
    determine_tx_type
        { hash := "0xw2", address := "z1sender", toAddress := BRIDGE_ADDRESS,
          amount := "100", tokenStandard := znnToken, height := 1,
          momentumTimestamp := none, data := none } = "WrapToken" ∧
    determine_tx_type
        { hash := "0xw3", address := "z1sender", toAddress := "z1other",
          amount := "0", tokenStandard := "", height := 1,
          momentumTimestamp := none,
          data := some [1, 2, 3, 4, 5] } = "Unknown" :=
  ⟨C2_wrap_heuristic.1 _ (Or.inl rfl) rfl (by decide) (by decide),
    C2_wrap_heuristic.2 _ [1, 2, 3, 4, 5] rfl (by decide) (by decide)⟩

/-- Doubling a capped delay and recapping equals capping the doubled
uncapped value: one step of the backoff recursion in closed form. -/
lemma min_backoff (d k : Nat) :
    min (min (d * 2) 300 * 2 ^ k) 300 = min (d * 2 ^ (k + 1)) 300 := by
  rcases Nat.le_total (d * 2) 300 with h | h
  · rw [Nat.min_eq_left h]
    congr 1
    rw [pow_succ]
    ring
  · rw [Nat.min_eq_right h]
    have h1 : (300 : Nat) ≤ 300 * 2 ^ k :=
      Nat.le_mul_of_pos_right 300 (Nat.pos_pow_of_pos k (by omega))
    have h2 : (300 : Nat) ≤ d * 2 ^ (k + 1) := by
      calc (300 : Nat) ≤ d * 2 := h
        _ ≤ d * 2 * 2 ^ k := Nat.le_mul_of_pos_right _ (Nat.pos_pow_of_pos k (by omega))
        _ = d * 2 ^ (k + 1) := by rw [pow_succ]; ring
    rw [Nat.min_eq_right h1, Nat.min_eq_right h2]

/-- Sleeps of a run of consecutive connection failures, in closed form:
starting from any delay at most the cap, the k-th sleep is the doubled
base capped at 300. -/
lemma runStart_replicate (n : Nat) :
    ∀ d : Nat, d ≤ 300 →
      (runStart d (List.replicate n ConnAttempt.connectFail)).2 =
        (List.range n).map fun k => min (d * 2 ^ k) 300 := by
  induction n with
  | zero => intro d _; rfl
  | succ n ih =>
    intro d hd
    rw [List.replicate_succ, List.range_succ_eq_map]
    have hstep :
        runStart d (ConnAttempt.connectFail ::
            List.replicate n ConnAttempt.connectFail) =
          ((runStart (min (d * 2) 300)
              (List.replicate n ConnAttempt.connectFail)).1,
            d :: (runStart (min (d * 2) 300)
              (List.replicate n ConnAttempt.connectFail)).2) := by
      simp [runStart, startStep, connectResult, backoffNext, max_reconnect_delay]
    rw [hstep]
    have hcap : min (d * 2) 300 ≤ 300 := Nat.min_le_right _ _
    simp only [ih (min (d * 2) 300) hcap, List.map_cons, List.map_map]
    congr 1
    · rw [pow_zero, Nat.mul_one, Nat.min_eq_left hd]
    · apply List.map_congr_left
      intro k _
      show min (min (d * 2) 300 * 2 ^ k) 300 = min (d * 2 ^ (k + 1)) 300
      exact min_backoff d k

/-- C3 counterexample: on the run where the first connection attempt fails
and the second connects but fails during subscribe, the source sleeps
5 then 5 (the delay was reset on the successful connection, before the
subscribe), while the claimed discipline — reset only on subscribe
success — would sleep 5 then 10. -/
theorem C3_counterexample :
    runStart 5 [ConnAttempt.connectFail, ConnAttempt.subscribeFail] ≠
      claimedRun 5 [ConnAttempt.connectFail, ConnAttempt.subscribeFail] ∧
    (runStart 5 [ConnAttempt.connectFail, ConnAttempt.subscribeFail]).2 =
      [5, 5] ∧
    (claimedRun 5 [ConnAttempt.connectFail, ConnAttempt.subscribeFail]).2 =
      [5, 10] := by
  decide

/-- C3 (amended): along any run, consecutive connection failures from the
base delay sleep 5, 10, 20, 40, ... capped at 300, each failure doubling
the delay with cap 300; and the delay is reset to 5 on every successful
connection — before the subscribe is attempted — not on subscribe
success. -/
theorem C3_backoff_discipline :
    (∀ n : Nat,
        (runStart 5 (List.replicate n ConnAttempt.connectFail)).2 =
          (List.range n).map fun k => min (5 * 2 ^ k) 300) ∧
    (∀ (d : Nat) (a : ConnAttempt), a ≠ ConnAttempt.connectFail →
        (connectResult d a).1 = 5) := by
  constructor
  · intro n
    exact runStart_replicate n 5 (by omega)
  · intro d a ha
    cases a with
    | connectFail => exact absurd rfl ha
    | subscribeFail => rfl
    | streamFail => rfl
    | streamClose => rfl

/-- C3 witness: seven consecutive failures sleep 5, 10, 20, 40, 80, 160,
300, and a subscribe failure at delay 300 still finds the delay reset
to 5 by the preceding successful connection. -/
theorem C3_backoff_discipline_witness :
    (runStart 5 (List.replicate 7 ConnAttempt.connectFail)).2 =
      ((List.range 7).map fun k => min (5 * 2 ^ k) 300) ∧
    (connectResult 300 ConnAttempt.subscribeFail).1 = 5 :=
  ⟨C3_backoff_discipline.1 7,
    C3_backoff_discipline.2 300 ConnAttempt.subscribeFail (by decide)⟩

/-- After `add_transaction`, the table always holds a row with the
transaction's hash. -/
lemma add_transaction_mem (db : List TxRow) (tx : TxInfo) :
    ((add_transaction db tx).any fun r => r.hash = tx.hash) = true := by
  unfold add_transaction
  split
  · next h => exact h
  · simp [List.any_append, rowOf]

/-- `INSERT OR IGNORE` is a no-op when a row with the hash exists. -/
lemma add_transaction_of_mem (db : List TxRow) (tx : TxInfo)
    (h : (db.any fun r => r.hash = tx.hash) = true) :
    add_transaction db tx = db := by
  unfold add_transaction
  rw [h]
  rfl

/-- C4 counterexample: the source's `add_transaction` returns `None` on
every call (there is no `RecordOutcome`), so the value returned by the
second call with the same hash is identical to the value returned by the
first — no distinguished `AlreadyPresent` outcome is reported, even
though the second call does leave the state of the first call unchanged. -/
theorem C4_counterexample :
    (add_transaction_call
        (add_transaction []
          { hash := "0xc4", from_addr := "z1a", to_addr := "z1b",
            amount := "7", token := znnToken, block_height := 3,
            timestamp := none, type := "WrapToken", eth_addr := none })
        { hash := "0xc4", from_addr := "z1a", to_addr := "z1b",
          amount := "7", token := znnToken, block_height := 3,
          timestamp := none, type := "WrapToken", eth_addr := none }).2 =
      (add_transaction_call []
        { hash := "0xc4", from_addr := "z1a", to_addr := "z1b",
          amount := "7", token := znnToken, block_height := 3,
          timestamp := none, type := "WrapToken", eth_addr := none }).2 ∧
    (add_transaction_call
        (add_transaction []
          { hash := "0xc4", from_addr := "z1a", to_addr := "z1b",
            amount := "7", token := znnToken, block_height := 3,
            timestamp := none, type := "WrapToken", eth_addr := none })
        { hash := "0xc4", from_addr := "z1a", to_addr := "z1b",
          amount := "7", token := znnToken, block_height := 3,
          timestamp := none, type := "WrapToken", eth_addr := none }).1 =
      add_transaction []
        { hash := "0xc4", from_addr := "z1a", to_addr := "z1b",
          amount := "7", token := znnToken, block_height := 3,
          timestamp := none, type := "WrapToken", eth_addr := none } := by
  decide

/-- C4 (amended): `add_transaction` is idempotent — recording the same
transaction twice leaves the state of the first call unchanged, and on a
table that did not contain the hash exactly one row with that hash is
stored; the second call completes without error but reports nothing
(the function returns `None` both times, not an `AlreadyPresent`
outcome). -/
theorem C4_record_idempotent :
    ∀ (db : List TxRow) (tx : TxInfo),
      add_transaction (add_transaction db tx) tx = add_transaction db tx ∧
      ((db.any fun r => r.hash = tx.hash) = false →
        ((add_transaction db tx).filter fun r => r.hash = tx.hash).length =
          1) := by
  intro db tx
  constructor
  · exact add_transaction_of_mem _ tx (add_transaction_mem db tx)
  · intro hno
    have habs : add_transaction db tx = db ++ [rowOf tx] := by
      unfold add_transaction
      rw [hno]
      rfl
    have hnil : (db.filter fun r => r.hash = tx.hash) = [] := by
      rw [List.filter_eq_nil_iff]
      intro r hr
      have := List.any_eq_false.mp hno r hr
      simpa using this
    rw [habs, List.filter_append, hnil]
    simp [rowOf]

/-- C4 witness: the amended theorem applied to the empty table and a
concrete transaction. -/
theorem C4_record_idempotent_witness :
    add_transaction
        (add_transaction []
          { hash := "0xd4", from_addr := "z1a", to_addr := "z1b",
            amount := "9", token := qsrToken, block_height := 4,
            timestamp := none, type := "Redeem", eth_addr := none })
        { hash := "0xd4", from_addr := "z1a", to_addr := "z1b",
          amount := "9", token := qsrToken, block_height := 4,
          timestamp := none, type := "Redeem", eth_addr := none } =
      add_transaction []
        { hash := "0xd4", from_addr := "z1a", to_addr := "z1b",
          amount := "9", token := qsrToken, block_height := 4,
          timestamp := none, type := "Redeem", eth_addr := none } ∧
    ((add_transaction []
        { hash := "0xd4", from_addr := "z1a", to_addr := "z1b",
          amount := "9", token := qsrToken, block_height := 4,
          timestamp := none, type := "Redeem", eth_addr := none }).filter
      fun r => r.hash = "0xd4").length = 1 := by
  have h := C4_record_idempotent []
      { hash := "0xd4", from_addr := "z1a", to_addr := "z1b",
        amount := "9", token := qsrToken, block_height := 4,
        timestamp := none, type := "Redeem", eth_addr := none }
  exact ⟨h.1, h.2 (by decide)⟩

/-- C5: for every transaction type, send-success environment, and list of
active subscribers, the subscriber loop produces exactly one outcome per
subscriber, in order, each computed from that subscriber alone
(`attemptOne`) — so a delivery failure for one subscriber cannot prevent
or alter the attempts for the others; the outcome is filtered-out exactly
when the subscriber's filter set is non-empty and lacks the transaction's
type, and every other subscriber gets a real delivery attempt whose
outcome is decided by its own send result. -/
theorem C5_fanout_isolation :
    ∀ (txType : String) (send : Int → Bool) (subs : List Subscriber),
      send_loop txType send subs =
        subs.map (fun s => (s.user_id, attemptOne txType send s)) ∧
      ∀ s : Subscriber,
        (attemptOne txType send s = DeliveryOutcome.filteredOut ↔
          s.filters ≠ [] ∧ txType ∉ s.filters) ∧
        ((s.filters = [] ∨ txType ∈ s.filters) →
          attemptOne txType send s =
            if send s.user_id then DeliveryOutcome.delivered
            else DeliveryOutcome.failed) := by
  intro txType send subs
  constructor
  · induction subs with
    | nil => rfl
    | cons s rest ih =>
      by_cases h1 : s.filters ≠ [] ∧ txType ∉ s.filters
      · simp [send_loop, attemptOne, h1, ih]
      · by_cases h2 : send s.user_id = true
        · simp [send_loop, attemptOne, h1, h2, ih]
        · simp [send_loop, attemptOne, h1, h2, ih]
  · intro s
    constructor
    · unfold attemptOne
      split
      · next h => simp [h]
      · next h =>
        constructor
        · intro hx
          split at hx
          · exact absurd hx (by decide)
          · exact absurd hx (by decide)
        · intro hx
          exact absurd hx h
    · intro h
      have hno : ¬(s.filters ≠ [] ∧ txType ∉ s.filters) := by
        rcases h with h | h
        · intro hc
          exact hc.1 h
        · intro hc
          exact hc.2 h
      unfold attemptOne
      rw [if_neg hno]

/-- C5 witness: the spec's three-subscriber example — filter sets empty,
WrapToken-only, Redeem-only — against a WrapToken transaction with all
sends succeeding: subscribers 1 and 2 are delivered to, subscriber 3 is
filtered out. -/
theorem C5_fanout_isolation_witness :
    send_loop "WrapToken" (fun _ => true)
        [{ user_id := 1, username := none, filters := [] },
          { user_id := 2, username := none, filters := ["WrapToken"] },
          { user_id := 3, username := none, filters := ["Redeem"] }] =
      [(1, DeliveryOutcome.delivered), (2, DeliveryOutcome.delivered),
        (3, DeliveryOutcome.filteredOut)] ∧
    attemptOne "WrapToken" (fun _ => true)
        { user_id := 3, username := none, filters := ["Redeem"] } =
      DeliveryOutcome.filteredOut := by
  have h := C5_fanout_isolation "WrapToken" (fun _ => true)
      [{ user_id := 1, username := none, filters := [] },
        { user_id := 2, username := none, filters := ["WrapToken"] },
        { user_id := 3, username := none, filters := ["Redeem"] }]
  refine ⟨?_, ?_⟩
  · rw [h.1]
    rfl
  · exact (h.2 { user_id := 3, username := none, filters := ["Redeem"] }).1.mpr
      (by decide)

/-- C6: the claim is right and the code is wrong.  A storage-unavailable
error while recording — `aiosqlite.connect` raising inside
`add_transaction`, which sits outside that function's `try/except` —
propagates out of `send_transaction_notification` before the subscriber
loop, so no delivery is attempted for the transaction, although a failure
of the guarded `execute/commit` step is swallowed and fanout does
proceed as the spec demands. -/
theorem C6_storage_outage_blocks_fanout :
    send_transaction_notification StorageFault.connectFail []
        [{ user_id := 1, username := none, filters := [] }]
        { hash := "0xc6", from_addr := "z1a", to_addr := BRIDGE_ADDRESS,
          amount := "5", token := znnToken, block_height := 6,
          timestamp := none, type := "WrapToken", eth_addr := none }
        (fun _ => true) =
      Except.error () ∧
    send_transaction_notification StorageFault.execFail []
        [{ user_id := 1, username := none, filters := [] }]
        { hash := "0xc6", from_addr := "z1a", to_addr := BRIDGE_ADDRESS,
          amount := "5", token := znnToken, block_height := 6,
          timestamp := none, type := "WrapToken", eth_addr := none }
        (fun _ => true) =
      Except.ok ([], [(1, DeliveryOutcome.delivered)]) :=
  ⟨rfl, rfl⟩

/-- A primary block whose recipient is the burn address, used to exhibit
the burn-address `continue` skipping its paired block. -/
def burnPrimaryBlock : BlockData :=
  { hash := "0xp1", address := "z1user", toAddress := BURN_ADDRESS,
    amount := "100", tokenStandard := znnToken, height := 9,
    momentumTimestamp := none, data := none }

/-- A paired block that is a bridge-matching, filter-passing wrap event. -/
def bridgePairedBlock : BlockData :=
  { hash := "0xp2", address := "z1user2", toAddress := BRIDGE_ADDRESS,
    amount := "500", tokenStandard := znnToken, height := 9,
    momentumTimestamp := none, data := none }

/-- C7 counterexample: when the primary block's recipient is the burn
address, the loop's `continue` skips the whole iteration, so a nested
paired event that is itself a bridge-matching, validity-passing
transaction is never classified or emitted — the paired event is not
processed independently of how the primary was filtered. -/
theorem C7_counterexample :
    process_account_block
        [{ base := burnPrimaryBlock,
           pairedAccountBlock := some bridgePairedBlock }] = [] ∧
    is_valid_bridge_transaction (decode_transaction bridgePairedBlock) =
      true ∧
    bridgePairedBlock.toAddress = BRIDGE_ADDRESS ∧
    bridgePairedBlock.toAddress ≠ BURN_ADDRESS := by
  decide

/-- C7 (amended): provided the primary block's recipient is not the burn
address, the paired event is classified and validity-filtered
independently of the primary — the block's emissions decompose into the
primary's emissions followed by emissions computed from the paired block
alone, in primary-then-paired order; when the primary's recipient is the
burn address the whole iteration, paired event included, is skipped. -/
theorem C7_paired_independent :
    ∀ rb : RawBlock, rb.base.toAddress ≠ BURN_ADDRESS →
      process_block rb =
        primary_emissions rb.base ++ paired_emissions rb.pairedAccountBlock := by
  intro rb h
  obtain ⟨b, p⟩ := rb
  simp only [process_block, primary_emissions, paired_emissions]
  rw [if_neg h]

/-- C7 witness: the amended theorem applied to a concrete non-burn primary
block carrying the concrete paired block. -/
theorem C7_paired_independent_witness :
    process_block
        { base := bridgePairedBlock,
          pairedAccountBlock := some burnPrimaryBlock } =
      primary_emissions bridgePairedBlock ++
        paired_emissions (some burnPrimaryBlock) :=
  C7_paired_independent _ (by decide)

/-- C8: no transaction whose recipient is the burn address is ever emitted
by `_process_account_block` — and `on_transaction` (which performs the
`add_transaction` record and the notification fanout) is invoked exactly
on these emissions, so no burn-recipient transaction reaches persistence
or fanout. -/
theorem C8_burn_never_reaches :
    ∀ (blocks : List RawBlock) (tx : TxInfo),
      tx ∈ process_account_block blocks → tx.to_addr ≠ BURN_ADDRESS := by
  intro blocks tx h
  exact (mem_process_account_block h).2

/-- A to-bridge wrap block whose decoded transaction is emitted. -/
def wrapExampleBlock : BlockData :=
  { hash := "0xc8", address := "z1user", toAddress := BRIDGE_ADDRESS,
    amount := "42", tokenStandard := qsrToken, height := 11,
    momentumTimestamp := none, data := none }

/-- C8 witness: the theorem applied to a concrete emitted transaction. -/
theorem C8_burn_never_reaches_witness :
    (decode_transaction wrapExampleBlock).to_addr ≠ BURN_ADDRESS :=
  C8_burn_never_reaches
    [{ base := wrapExampleBlock, pairedAccountBlock := none }]
    (decode_transaction wrapExampleBlock) (by decide)

/-- Membership in the key deduplication: a key is listed exactly when it
occurs in the input and not among the keys already seen. -/
lemma mem_groupKeysAux (x : String × String) :
    ∀ (l seen : List (String × String)),
      x ∈ groupKeysAux seen l ↔ x ∈ l ∧ x ∉ seen := by
  intro l
  induction l with
  | nil => intro seen; simp [groupKeysAux]
  | cons k rest ih =>
    intro seen
    unfold groupKeysAux
    by_cases hk : k ∈ seen
    · rw [if_pos hk, ih seen]
      constructor
      · rintro ⟨h1, h2⟩
        exact ⟨List.mem_cons_of_mem k h1, h2⟩
      · rintro ⟨h1, h2⟩
        rcases List.mem_cons.mp h1 with h1 | h1
        · subst h1
          exact absurd hk h2
        · exact ⟨h1, h2⟩
    · rw [if_neg hk, List.mem_cons, ih (k :: seen)]
      constructor
      · rintro (rfl | ⟨h1, h2⟩)
        · exact ⟨List.mem_cons_self x rest, hk⟩
        · exact ⟨List.mem_cons_of_mem k h1,
            fun hs => h2 (List.mem_cons_of_mem k hs)⟩
      · rintro ⟨h1, h2⟩
        rcases List.mem_cons.mp h1 with h1 | h1
        · exact Or.inl h1
        · by_cases hxk : x = k
          · exact Or.inl hxk
          · refine Or.inr ⟨h1, ?_⟩
            intro hs
            rcases List.mem_cons.mp hs with hs | hs
            · exact hxk hs
            · exact h2 hs

/-- `groupKeys` preserves exactly the keys of its input. -/
lemma mem_groupKeys {x : String × String} {l : List (String × String)} :
    x ∈ groupKeys l ↔ x ∈ l := by
  rw [groupKeys, mem_groupKeysAux]
  simp

/-- Statistics of a one-row store whose row passes the window check. -/
lemma get_statistics_singleton (p : Nat) (n : Int) (r : TxRow)
    (h : inWindow p n r = true) :
    get_statistics p n [r] =
      [{ type := r.type, count := 1, token := r.token,
         volume := castAmount r }] := by
  unfold get_statistics
  simp [h, groupKeys, groupKeysAux, sumAmounts]

/-- C9 counterexample: on a store holding one WrapToken of raw amount
100000000 (a token with 8 decimal places) timestamped 2 days before now,
`get_statistics(7)` returns one aggregate row whose summed volume is the
raw stored amount 100000000 — not the decimal-formatted volume 1.00
the claim states (no decimal adjustment happens in the query or its
consumers). -/
theorem C9_counterexample :
    get_statistics 7 864000
        [{ hash := "0xc9", type := "WrapToken", amount := "100000000",
           token := znnToken, from_addr := "z1u", to_addr := BRIDGE_ADDRESS,
           eth_addr := none, timestamp := some 691200,
           block_height := 5 }] =
      [{ type := "WrapToken", count := 1, token := znnToken,
         volume := 100000000 }] ∧
    (100000000 : Nat) ≠ 1 := by
  decide

/-- C9 (amended): `get_statistics(windowDays)` aggregates, grouped by type
and token, the count and raw summed amount of exactly those stored rows
whose timestamp is inside the trailing window or null — every reported
group counts and sums precisely its matching in-window rows and is
non-empty, every in-window row is represented by a group, and on the
claim's concrete one-row store the result is one row with count 1 and raw
volume 100000000 (which is the formatted value 1.00 only after a decimal
adjustment the code never performs). -/
theorem C9_statistics_window :
    ∀ (period_days : Nat) (now : Int) (rows : List TxRow),
      (∀ s ∈ get_statistics period_days now rows,
        0 < s.count ∧
        s.count = ((rows.filter (inWindow period_days now)).filter fun r =>
          r.type = s.type ∧ r.token = s.token).length ∧
        s.volume = sumAmounts ((rows.filter (inWindow period_days now)).filter
          fun r => r.type = s.type ∧ r.token = s.token)) ∧
      (∀ r ∈ rows, inWindow period_days now r = true →
        ∃ s ∈ get_statistics period_days now rows,
          s.type = r.type ∧ s.token = r.token) ∧
      (∀ (now2 : Int) (r : TxRow), r.timestamp = some (now2 - 172800) →
        get_statistics 7 now2 [r] =
          [{ type := r.type, count := 1, token := r.token,
             volume := castAmount r }]) := by
  intro period_days now rows
  refine ⟨?_, ?_, ?_⟩
  · intro s hs
    unfold get_statistics at hs
    rw [List.mem_map] at hs
    obtain ⟨k, hk, rfl⟩ := hs
    refine ⟨?_, rfl, rfl⟩
    rw [mem_groupKeys, List.mem_map] at hk
    obtain ⟨r, hr, hkey⟩ := hk
    subst hkey
    have hmem : r ∈ (rows.filter (inWindow period_days now)).filter
        fun x => x.type = r.type ∧ x.token = r.token := by
      rw [List.mem_filter]
      exact ⟨hr, by simp⟩
    simpa using List.length_pos.mpr (List.ne_nil_of_mem hmem)
  · intro r hr hw
    have hm : r ∈ rows.filter (inWindow period_days now) :=
      List.mem_filter.mpr ⟨hr, hw⟩
    have hk : (r.type, r.token) ∈
        groupKeys ((rows.filter (inWindow period_days now)).map fun x =>
          (x.type, x.token)) := by
      rw [mem_groupKeys]
      exact List.mem_map_of_mem _ hm
    exact ⟨_, List.mem_map_of_mem _ hk, rfl, rfl⟩
  · intro now2 r hts
    apply get_statistics_singleton
    unfold inWindow
    rw [hts]
    simp only [decide_eq_true_eq]
    omega

/-- C9 witness: the amended theorem applied to the concrete one-row store,
producing the group for the stored WrapToken row. -/
theorem C9_statistics_window_witness :
    ∃ s ∈ get_statistics 7 864000
        [{ hash := "0xc9w", type := "WrapToken", amount := "100000000",
           token := znnToken, from_addr := "z1u", to_addr := BRIDGE_ADDRESS,
           eth_addr := none, timestamp := some 691200,
           block_height := 5 }],
      s.type = "WrapToken" ∧ s.token = znnToken :=
  (C9_statistics_window 7 864000
      [{ hash := "0xc9w", type := "WrapToken", amount := "100000000",
         token := znnToken, from_addr := "z1u", to_addr := BRIDGE_ADDRESS,
         eth_addr := none, timestamp := some 691200,
         block_height := 5 }]).2.1
    { hash := "0xc9w", type := "WrapToken", amount := "100000000",
      token := znnToken, from_addr := "z1u", to_addr := BRIDGE_ADDRESS,
      eth_addr := none, timestamp := some 691200, block_height := 5 }
    (by decide) (by decide)

/-- The write-back in `get_active_subscribers` never touches the active
flag. -/
lemma cleanRow_active (r : SubRow) : (cleanRow r).active = r.active := by
  unfold cleanRow
  split <;> rfl

/-- C10: every subscriber returned by `get_active_subscribers` carries a
filter list drawn from the whitelist WrapToken, UnwrapToken, Redeem, and
after the read every active stored row's filter list is also inside the
whitelist — invalid entries are removed from the returned lists and the
cleaned lists are written back, so no other type name survives a read. -/
theorem C10_filters_whitelisted :
    ∀ store : List SubRow,
      (∀ s ∈ (get_active_subscribers store).1, ∀ f ∈ s.filters,
        f ∈ valid_filters) ∧
      (∀ r ∈ (get_active_subscribers store).2, r.active = true →
        ∀ f ∈ r.filters, f ∈ valid_filters) := by
  intro store
  constructor
  · intro s hs f hf
    unfold get_active_subscribers at hs
    rw [List.mem_map] at hs
    obtain ⟨r, hr, rfl⟩ := hs
    have hf2 : f ∈ cleanFilters r.filters := hf
    rw [cleanFilters, List.mem_filter] at hf2
    simpa using hf2.2
  · intro r2 hr2 hact f hf
    unfold get_active_subscribers at hr2
    rw [List.mem_map] at hr2
    obtain ⟨r, hr, rfl⟩ := hr2
    have hact2 : r.active = true := by
      rw [← cleanRow_active r]
      exact hact
    unfold cleanRow at hf
    split at hf
    · have hf2 : f ∈ cleanFilters r.filters := hf
      rw [cleanFilters, List.mem_filter] at hf2
      simpa using hf2.2
    · next h =>
      have hlen : (cleanFilters r.filters).length = r.filters.length := by
        by_contra hne
        exact h ⟨hact2, hne⟩
      have hall := List.filter_eq_self.mp
        (List.Sublist.eq_of_length (List.filter_sublist r.filters) hlen)
      simpa using hall f hf

/-- C10 witness: the theorem applied to a concrete store holding one
active subscriber with an invalid stored filter entry. -/
theorem C10_filters_whitelisted_witness :
    "WrapToken" ∈ valid_filters :=
  (C10_filters_whitelisted
      [{ user_id := 1, username := none, active := true,
         filters := ["WrapToken", "Bogus"] }]).1
    { user_id := 1, username := none, filters := ["WrapToken"] }
    (by decide) "WrapToken" (by decide)
